import Mathlib

/-!
Verification of the secure-user account system (UserIdentity, AccountAccess,
SecureUser) against its natural-language specification.

The development is a shallow embedding of the three Python modules
src/user_identity.py, src/account_access.py and src/secure_user.py:
pure Lean functions mirror the methods, mutation is explicit state passing,
and a raised ValueError becomes an explicit error value.  Wall-clock audit
timestamps are environment input and are omitted from log entries; no claim
depends on them.
-/

/-- Error kinds of the system.  The source raises the builtin ValueError at
every failure site; the specification classifies those sites into three
error kinds (ValidationError for the email and phone validators,
InvalidStateTransition for the verification state machine, PermissionDenied
for the restricted-permission gate), which this type records. -/
inductive PyError where
  | validationError (msg : String)
  | invalidStateTransition (msg : String)
  | permissionDenied (msg : String)
deriving DecidableEq

/-- Message carried by an error, as str(e) would produce in the source. -/
def PyError.message : PyError → String
  | .validationError m => m
  | .invalidStateTransition m => m
  | .permissionDenied m => m

/-- Embeds the Python str.upper() used on ASCII permission names:
character-wise basic-latin uppercasing. -/
def pyUpper (s : String) : String := ⟨s.data.map Char.toUpper⟩

/-- A Char.ofNat at a valid code point decodes back to the same Nat. -/
theorem toNat_ofNat_valid (n : Nat) (h : n.isValidChar) :
    (Char.ofNat n).toNat = n := by
  rw [Char.ofNat, dif_pos h]
  simp [Char.ofNatAux, Char.toNat, UInt32.toNat, BitVec.toNat_ofNatLt]

/-- Basic-latin uppercasing is idempotent at the character level. -/
theorem toUpper_idem (c : Char) : (Char.toUpper c).toUpper = c.toUpper := by
  unfold Char.toUpper
  by_cases h : 97 ≤ c.toNat ∧ c.toNat ≤ 122
  · rw [if_pos h]
    have hv : (c.toNat - 32).isValidChar := by left; omega
    have ht : (Char.ofNat (c.toNat - 32)).toNat = c.toNat - 32 :=
      toNat_ofNat_valid _ hv
    rw [if_neg]
    omega
  · rw [if_neg h, if_neg h]

/-- Uppercasing a string twice equals uppercasing it once. -/
theorem pyUpper_idem (s : String) : pyUpper (pyUpper s) = pyUpper s := by
  unfold pyUpper
  apply congrArg String.mk
  rw [List.map_map]
  exact List.map_congr_left (fun c _ => toUpper_idem c)

/- ===================== Email validation ===================== -/

/-- Character class of the regex local part [a-zA-Z0-9._%+-]. -/
def isEmailLocalChar (c : Char) : Bool :=
  c.isAlphanum || c = '.' || c = '_' || c = '%' || c = '+' || c = '-'

/-- Character class of the regex domain part [a-zA-Z0-9.-]. -/
def isEmailDomainChar (c : Char) : Bool :=
  c.isAlphanum || c = '.' || c = '-'

/-- The final-label requirement of the regex, [a-zA-Z]\x7b2,\x7d at end of
input: at least two characters, all ASCII letters. -/
def emailTld (l : List Char) : Bool :=
  decide (2 ≤ l.length) && l.all Char.isAlpha

/-- Matches the regex fragment [a-zA-Z0-9.-]*\.[a-zA-Z]\x7b2,\x7d$ on the
remaining input: some run of domain characters, a dot, then the final
label. -/
def emailDomainTail : List Char → Bool
  | [] => false
  | c :: cs => (c = '.' && emailTld cs) || (isEmailDomainChar c && emailDomainTail cs)

/-- Matches the regex fragment [a-zA-Z0-9.-]+\.[a-zA-Z]\x7b2,\x7d$ on the
part after the at sign. -/
def emailDomainPart : List Char → Bool
  | [] => false
  | c :: cs => isEmailDomainChar c && emailDomainTail cs

/-- The pattern body of UserIdentity.__validate_email matched against the
whole input: a nonempty run of local characters, an at sign, then the
domain part.  Both character classes exclude the at sign, so the maximal
local-character prefix must be followed directly by it. -/
def emailPatternMatch (l : List Char) : Bool :=
  match l.dropWhile isEmailLocalChar with
  | '@' :: rest => !(l.takeWhile isEmailLocalChar).isEmpty && emailDomainPart rest
  | _ => false

/-- Embeds re.match with the anchored pattern of __validate_email.  The
Python dollar anchor matches at the end of the string or just before a
newline at the end of the string, so the pattern body may cover the whole
input or all of it except one trailing newline (the newline is in no
character class, so at most one can be tolerated). -/
def reEmailMatch (l : List Char) : Bool :=
  emailPatternMatch l ||
    (l.getLast? == some '\n' && emailPatternMatch l.dropLast)

/-- Embeds UserIdentity.__validate_email: returns the email unchanged when
the regex matches, raises ValueError otherwise. -/
def validate_email (email : String) : Except PyError String :=
  if reEmailMatch email.data then .ok email
  else .error (.validationError ("Invalid email format: " ++ email))

/-- The pattern described by the specification, as a direct decomposition:
local@domain.tld with an ASCII local part of letters, digits and ._%+-, an
at sign, a nonempty domain of letters, digits, dots and dashes, a dot, and
a final label of at least two letters. -/
def EmailSpec (s : String) : Prop :=
  ∃ lo d t : List Char,
    s.data = lo ++ '@' :: (d ++ '.' :: t) ∧
    lo ≠ [] ∧ (∀ c ∈ lo, isEmailLocalChar c) ∧
    d ≠ [] ∧ (∀ c ∈ d, isEmailDomainChar c) ∧
    (∀ c ∈ t, c.isAlpha) ∧ 2 ≤ t.length

/-- What the validator actually accepts: the specified pattern, possibly
followed by one trailing newline that the Python dollar anchor skips. -/
def EmailSpecPy (s : String) : Prop :=
  EmailSpec s ∨ ∃ l : List Char, s.data = l ++ ['\n'] ∧ EmailSpec ⟨l⟩

/- ===================== Phone validation ===================== -/

/-- Characters removed by UserIdentity.__validate_phone before checking:
spaces, dashes and parentheses. -/
def phoneStripChar (c : Char) : Bool :=
  c = ' ' || c = '-' || c = '(' || c = ')'

/-- Embeds the chained .replace calls of __validate_phone: the phone with
every space, dash and parenthesis removed. -/
def cleanedPhone (phone : String) : List Char :=
  phone.data.filter (fun c => !phoneStripChar c)

/-- Embeds the Python str.isdigit() on a cleaned suffix: nonempty and all
ASCII digits (the inputs reaching it here are ASCII). -/
def pyIsDigit (l : List Char) : Bool :=
  !l.isEmpty && l.all Char.isDigit

/-- Embeds phone.startswith applied to a plus sign: the first character
equals the plus sign. -/
def startsWithPlus (l : List Char) : Bool :=
  match l with
  | c :: _ => c == '+'
  | [] => false

/-- Embeds UserIdentity.__validate_phone: accept when the phone starts with
a plus sign, the cleaned form has length 11 to 16, and everything after its
leading plus is a digit; raise ValueError otherwise. -/
def validate_phone (phone : String) : Except PyError String :=
  let cleaned := cleanedPhone phone
  if startsWithPlus phone.data && decide (11 ≤ cleaned.length) &&
      decide (cleaned.length ≤ 16) && pyIsDigit (cleaned.drop 1) then
    .ok phone
  else
    .error (.validationError
      ("Invalid phone format: " ++ phone ++ ". Expected format: +X-XXX-XXX-XXXX"))

/-- The phone rule as the specification words it: starts with a plus sign
and, after removing spaces, dashes and parentheses, has between 11 and 16
characters with every character after the leading plus a digit. -/
def PhoneSpec (s : String) : Prop :=
  (∃ r, s.data = '+' :: r) ∧
  11 ≤ (cleanedPhone s).length ∧ (cleanedPhone s).length ≤ 16 ∧
  ∀ c ∈ (cleanedPhone s).drop 1, c.isDigit

/- ===================== UserIdentity ===================== -/

/-- The three verification states.  The source stores them as the strings
UNVERIFIED, PENDING and VERIFIED. -/
inductive VerificationStatus where
  | UNVERIFIED
  | PENDING
  | VERIFIED
deriving DecidableEq

/-- State of a UserIdentity object: public username, protected email,
private phone number and private verification status. -/
structure UserIdentity where
  username : String
  email : String
  phone_number : String
  verification_status : VerificationStatus
deriving DecidableEq

/-- Embeds UserIdentity.set_email: validate, then assign; on failure the
ValueError propagates before any assignment, leaving the object unchanged.
The informational console print on change is a side channel outside the
model. -/
def UserIdentity.set_email (u : UserIdentity) (new_email : String) :
    Option PyError × UserIdentity :=
  match validate_email new_email with
  | .error e => (some e, u)
  | .ok v => (none, { u with email := v })

/-- Embeds UserIdentity.__init__: status starts UNVERIFIED, set_email
validates the email, then the phone validator runs; the first failure
raises and no object is produced. -/
def mkUserIdentity (username email phone_number : String) :
    Except PyError UserIdentity :=
  match validate_email email with
  | .error e => .error e
  | .ok v =>
    match validate_phone phone_number with
    | .error e => .error e
    | .ok p => .ok ⟨username, v, p, .UNVERIFIED⟩

/-- Embeds UserIdentity.request_verification: UNVERIFIED moves to PENDING,
the two other states raise ValueError and change nothing. -/
def UserIdentity.request_verification (u : UserIdentity) :
    Option PyError × UserIdentity :=
  match u.verification_status with
  | .UNVERIFIED => (none, { u with verification_status := .PENDING })
  | .PENDING =>
    (some (.invalidStateTransition "Verification already pending. Cannot request again."), u)
  | .VERIFIED =>
    (some (.invalidStateTransition "User already verified. Cannot request verification."), u)

/-- Embeds UserIdentity.verify: PENDING moves to VERIFIED, the two other
states raise ValueError and change nothing. -/
def UserIdentity.verify (u : UserIdentity) : Option PyError × UserIdentity :=
  match u.verification_status with
  | .PENDING => (none, { u with verification_status := .VERIFIED })
  | .UNVERIFIED =>
    (some (.invalidStateTransition "Cannot verify. User must request verification first."), u)
  | .VERIFIED =>
    (some (.invalidStateTransition "User already verified."), u)

/- ===================== AccountAccess ===================== -/

/-- The class-level constant AccountAccess.RESTRICTED_PERMISSIONS. -/
def RESTRICTED_PERMISSIONS : List String := ["TRANSFER", "WITHDRAW"]

/-- State of an AccountAccess object: the private permissions list. -/
structure AccountAccess where
  permissions : List String
deriving DecidableEq

/-- Embeds AccountAccess.__init__: an empty permissions list. -/
def AccountAccess.init : AccountAccess := ⟨[]⟩

/-- Embeds AccountAccess.add_permission: uppercase the name; raise
ValueError when it is restricted and the caller is not verified; otherwise
append it unless already present (a console note, no error). -/
def AccountAccess.add_permission (a : AccountAccess) (permission : String)
    (is_verified : Bool) : Option PyError × AccountAccess :=
  let p := pyUpper permission
  if p ∈ RESTRICTED_PERMISSIONS ∧ is_verified = false then
    (some (.permissionDenied
      ("Cannot grant " ++ p ++ " permission. User must be VERIFIED to receive restricted permissions.")), a)
  else if p ∈ a.permissions then
    (none, a)
  else
    (none, ⟨a.permissions ++ [p]⟩)

/-- Embeds a call of add_permission that omits is_verified, whose Python
default is True. -/
def AccountAccess.add_permission_default (a : AccountAccess)
    (permission : String) : Option PyError × AccountAccess :=
  a.add_permission permission true

/-- Embeds AccountAccess.remove_permission: uppercase the name; remove and
report True when present, report False (no error) when absent. -/
def AccountAccess.remove_permission (a : AccountAccess) (permission : String) :
    Bool × AccountAccess :=
  let p := pyUpper permission
  if p ∈ a.permissions then (true, ⟨a.permissions.erase p⟩)
  else (false, a)

/-- Embeds AccountAccess.has_permission: case-insensitive membership. -/
def AccountAccess.has_permission (a : AccountAccess) (permission : String) : Bool :=
  decide (pyUpper permission ∈ a.permissions)

/-- Embeds AccountAccess.get_permissions: a copy of the permissions list
(value semantics in the model; reference independence is treated in the
heap model below). -/
def AccountAccess.get_permissions (a : AccountAccess) : List String :=
  a.permissions

/- ===================== SecureUser ===================== -/

/-- One audit-log entry.  The source also stores a wall-clock timestamp
string; that field is environment input and is omitted here. -/
structure LogEntry where
  action : String
  details : String
deriving DecidableEq

/-- State of a SecureUser object: the owned identity, the owned access
object and the private audit log. -/
structure SecureUser where
  identity : UserIdentity
  access : AccountAccess
  audit_log : List LogEntry
deriving DecidableEq

/-- Embeds the Python f-string rendering of a bool. -/
def pyBoolStr (b : Bool) : String := if b then "True" else "False"

/-- Embeds SecureUser.__log_action: append one entry to the audit log. -/
def SecureUser.log_action (s : SecureUser) (action details : String) : SecureUser :=
  { s with audit_log := s.audit_log ++ [⟨action, details⟩] }

/-- Embeds SecureUser.__init__: build the identity (whose validation may
raise), then an empty access object and audit log, then log the creation. -/
def mkSecureUser (username email phone_number : String) :
    Except PyError SecureUser :=
  match mkUserIdentity username email phone_number with
  | .error e => .error e
  | .ok ident =>
    .ok (SecureUser.log_action ⟨ident, AccountAccess.init, []⟩
      "SecureUser created" ("Username: " ++ username))

/-- Audit entries emitted during a construction attempt.  When validation
fails, UserIdentity.__init__ raises on line 26 of src/secure_user.py before
line 28 creates the audit log, so a failing construction emits nothing. -/
def mkSecureUserEmittedLog (username email phone_number : String) : List LogEntry :=
  match mkSecureUser username email phone_number with
  | .error _ => []
  | .ok s => s.audit_log

/-- The local variable is_verified of SecureUser.grant_permission, derived
fresh from the current verification status at each call. -/
def SecureUser.derived_verified (s : SecureUser) : Bool :=
  s.identity.verification_status == .VERIFIED

/-- Embeds SecureUser.grant_permission: derive is_verified from the current
status, delegate to add_permission, then log success with the resolved flag
or log the failure reason and re-raise. -/
def SecureUser.grant_permission (s : SecureUser) (permission : String) :
    Option PyError × SecureUser :=
  match s.access.add_permission permission s.derived_verified with
  | (none, a2) =>
    (none, SecureUser.log_action { s with access := a2 } "Permission granted"
      ("Permission: " ++ permission ++ ", Verified: " ++ pyBoolStr s.derived_verified))
  | (some e, a2) =>
    (some e, SecureUser.log_action { s with access := a2 } "Permission grant FAILED"
      ("Permission: " ++ permission ++ ", Reason: " ++ e.message))

/-- Embeds SecureUser.revoke_permission: delegate to remove_permission and
log whether the permission was found and removed; never raises. -/
def SecureUser.revoke_permission (s : SecureUser) (permission : String) :
    Option PyError × SecureUser :=
  match s.access.remove_permission permission with
  | (removed, a2) =>
    (none, SecureUser.log_action { s with access := a2 }
      (if removed then "Permission revoked" else "Permission revoke failed (not found)")
      ("Permission: " ++ permission))

/-- The read-only snapshot returned by SecureUser.identity_status. -/
structure IdentityStatus where
  username : String
  email : String
  phone : String
  verification_status : VerificationStatus
  permissions : List String
deriving DecidableEq

/-- Embeds SecureUser.identity_status: the five current field values, with
the permissions obtained through get_permissions (a copy). -/
def SecureUser.identity_status (s : SecureUser) : IdentityStatus :=
  ⟨s.identity.username, s.identity.email, s.identity.phone_number,
    s.identity.verification_status, s.access.get_permissions⟩

/-- Embeds SecureUser.request_verification: delegate to the identity and
log the outcome, re-raising any failure. -/
def SecureUser.request_verification (s : SecureUser) :
    Option PyError × SecureUser :=
  match s.identity.request_verification with
  | (none, i2) =>
    (none, SecureUser.log_action { s with identity := i2 }
      "Verification requested" "Status: PENDING")
  | (some e, i2) =>
    (some e, SecureUser.log_action { s with identity := i2 }
      "Verification request FAILED" e.message)

/-- Embeds SecureUser.verify_identity: delegate to the identity and log the
outcome, re-raising any failure. -/
def SecureUser.verify_identity (s : SecureUser) :
    Option PyError × SecureUser :=
  match s.identity.verify with
  | (none, i2) =>
    (none, SecureUser.log_action { s with identity := i2 }
      "Identity verified" "Status: VERIFIED")
  | (some e, i2) =>
    (some e, SecureUser.log_action { s with identity := i2 }
      "Verification FAILED" e.message)

/-- Embeds SecureUser.update_email: delegate to set_email and log the old
and new address on success or the reason on failure, re-raising. -/
def SecureUser.update_email (s : SecureUser) (new_email : String) :
    Option PyError × SecureUser :=
  let old_email := s.identity.email
  match s.identity.set_email new_email with
  | (none, i2) =>
    (none, SecureUser.log_action { s with identity := i2 }
      "Email updated" (old_email ++ " -> " ++ new_email))
  | (some e, i2) =>
    (some e, SecureUser.log_action { s with identity := i2 }
      "Email update FAILED" e.message)

/-- Embeds SecureUser.get_audit_log: a copy of the log (value semantics in
the model; reference independence is treated in the heap model below). -/
def SecureUser.get_audit_log (s : SecureUser) : List LogEntry :=
  s.audit_log

/- ===================== Heap model of reference aliasing ===================== -/

/-- A small heap for the object graph behind the audit log.  Python lists
and dict entries are heap objects reached by reference: addresses index
into the two stores.  list.copy() as used by get_audit_log duplicates only
the list object, not the entry dicts it references. -/
structure Heap where
  lists : List (List Nat)
  dicts : List LogEntry
deriving DecidableEq

/-- Dereference a list object (empty list for a dangling address). -/
def Heap.readList (h : Heap) (a : Nat) : List Nat :=
  h.lists.getD a []

/-- Dereference an entry dict (a blank entry for a dangling address). -/
def Heap.readDict (h : Heap) (a : Nat) : LogEntry :=
  h.dicts.getD a ⟨"", ""⟩

/-- Embeds list.copy(): allocate a fresh list object holding the same
element references as the source list — a shallow copy. -/
def Heap.listCopy (h : Heap) (src : Nat) : Heap × Nat :=
  (⟨h.lists ++ [h.readList src], h.dicts⟩, h.lists.length)

/-- A caller-side in-place mutation of a list object: append an element. -/
def Heap.listAppend (h : Heap) (a : Nat) (d : Nat) : Heap :=
  ⟨h.lists.set a (h.readList a ++ [d]), h.dicts⟩

/-- A caller-side in-place mutation of a list object: clear it. -/
def Heap.listClear (h : Heap) (a : Nat) : Heap :=
  ⟨h.lists.set a [], h.dicts⟩

/-- A caller-side in-place mutation of an entry dict: overwrite it, as a
Python item assignment on the dict would. -/
def Heap.dictSet (h : Heap) (a : Nat) (e : LogEntry) : Heap :=
  ⟨h.lists, h.dicts.set a e⟩

/-- The audit-log value observable through a list object: the entries its
references point at, in order.  A subsequent get_audit_log call returns a
copy rendering exactly this value for the internal list object. -/
def Heap.renderLog (h : Heap) (a : Nat) : List LogEntry :=
  (h.readList a).map h.readDict

/- ===================== Validator lemmas ===================== -/

/-- The final-label check unfolded. -/
theorem emailTld_iff (l : List Char) :
    emailTld l = true ↔ (∀ c ∈ l, c.isAlpha) ∧ 2 ≤ l.length := by
  simp [emailTld, List.all_eq_true, and_comm]

/-- The tail matcher accepts exactly decompositions into a (possibly
empty) domain run, a dot and a valid final label. -/
theorem emailDomainTail_iff (l : List Char) :
    emailDomainTail l = true ↔
      ∃ d t, l = d ++ '.' :: t ∧ (∀ c ∈ d, isEmailDomainChar c) ∧ emailTld t = true := by
  induction l with
  | nil =>
    simp [emailDomainTail]
  | cons c cs ih =>
    simp only [emailDomainTail, Bool.or_eq_true, Bool.and_eq_true, decide_eq_true_eq, ih]
    constructor
    · rintro (⟨rfl, ht⟩ | ⟨hc, d, t, rfl, hd, ht⟩)
      · exact ⟨[], cs, rfl, by simp, ht⟩
      · exact ⟨c :: d, t, rfl, by simpa [hc] using hd, ht⟩
    · rintro ⟨d, t, heq, hd, ht⟩
      cases d with
      | nil =>
        simp at heq
        exact Or.inl ⟨heq.1, heq.2 ▸ ht⟩
      | cons c' d' =>
        simp at heq
        obtain ⟨rfl, rfl⟩ := heq
        exact Or.inr ⟨hd c (by simp), d', t, rfl, fun x hx => hd x (by simp [hx]), ht⟩

/-- The domain matcher accepts exactly decompositions with a nonempty
domain run. -/
theorem emailDomainPart_iff (l : List Char) :
    emailDomainPart l = true ↔
      ∃ d t, l = d ++ '.' :: t ∧ d ≠ [] ∧ (∀ c ∈ d, isEmailDomainChar c) ∧ emailTld t = true := by
  cases l with
  | nil => simp [emailDomainPart]
  | cons c cs =>
    simp only [emailDomainPart, Bool.and_eq_true, emailDomainTail_iff]
    constructor
    · rintro ⟨hc, d, t, rfl, hd, ht⟩
      exact ⟨c :: d, t, rfl, by simp, by simpa [hc] using hd, ht⟩
    · rintro ⟨d, t, heq, hne, hd, ht⟩
      cases d with
      | nil => exact absurd rfl hne
      | cons c' d' =>
        simp at heq
        obtain ⟨rfl, rfl⟩ := heq
        exact ⟨hd c (by simp), d', t, rfl, fun x hx => hd x (by simp [hx]), ht⟩

/-- Dropping a predicate-satisfying prefix skips it entirely. -/
theorem dropWhile_append_all {p : Char → Bool} (l1 l2 : List Char)
    (h : ∀ a ∈ l1, p a) : List.dropWhile p (l1 ++ l2) = List.dropWhile p l2 := by
  induction l1 with
  | nil => rfl
  | cons a l ih =>
    simp only [List.cons_append, List.dropWhile_cons, h a (by simp), if_true]
    exact ih fun x hx => h x (by simp [hx])

/-- Taking through a predicate-satisfying prefix keeps it entirely. -/
theorem takeWhile_append_all {p : Char → Bool} (l1 l2 : List Char)
    (h : ∀ a ∈ l1, p a) : List.takeWhile p (l1 ++ l2) = l1 ++ List.takeWhile p l2 := by
  induction l1 with
  | nil => rfl
  | cons a l ih =>
    simp only [List.cons_append, List.takeWhile_cons, h a (by simp), if_true]
    rw [ih fun x hx => h x (by simp [hx])]

/-- The pattern body accepts exactly decompositions into a nonempty local
part, the at sign and an accepted domain part. -/
theorem emailPatternMatch_iff (l : List Char) :
    emailPatternMatch l = true ↔
      ∃ lo rest, l = lo ++ '@' :: rest ∧ lo ≠ [] ∧
        (∀ c ∈ lo, isEmailLocalChar c) ∧ emailDomainPart rest = true := by
  constructor
  · intro hm
    unfold emailPatternMatch at hm
    split at hm
    next heq =>
      rename_i rest
      simp only [Bool.and_eq_true, Bool.not_eq_true', List.isEmpty_eq_false] at hm
      refine ⟨l.takeWhile isEmailLocalChar, rest, ?_, hm.1, ?_, hm.2⟩
      · rw [← heq, List.takeWhile_append_dropWhile]
      · exact fun c hc => List.mem_takeWhile_imp hc
    next => exact absurd hm (by simp)
  · rintro ⟨lo, rest, rfl, hne, hlo, hdp⟩
    unfold emailPatternMatch
    have h1 : List.dropWhile isEmailLocalChar (lo ++ '@' :: rest) = '@' :: rest := by
      rw [dropWhile_append_all _ _ hlo]
      simp [List.dropWhile_cons, isEmailLocalChar]
    have h2 : List.takeWhile isEmailLocalChar (lo ++ '@' :: rest) = lo := by
      rw [takeWhile_append_all _ _ hlo]
      simp [List.takeWhile_cons, isEmailLocalChar]
    rw [h1, h2]
    simp [hne, hdp]

/-- The pattern body accepts exactly the pattern the specification
describes. -/
theorem emailPatternMatch_iff_spec (s : String) :
    emailPatternMatch s.data = true ↔ EmailSpec s := by
  rw [emailPatternMatch_iff]
  constructor
  · rintro ⟨lo, rest, heq, hne, hlo, hdp⟩
    rw [emailDomainPart_iff] at hdp
    obtain ⟨d, t, rfl, hdne, hd, ht⟩ := hdp
    rw [emailTld_iff] at ht
    exact ⟨lo, d, t, heq, hne, hlo, hdne, hd, ht.1, ht.2⟩
  · rintro ⟨lo, d, t, heq, hne, hlo, hdne, hd, hta, htl⟩
    refine ⟨lo, d ++ '.' :: t, heq, hne, hlo, ?_⟩
    rw [emailDomainPart_iff]
    exact ⟨d, t, rfl, hdne, hd, (emailTld_iff t).2 ⟨hta, htl⟩⟩

/-- The embedded re.match accepts exactly the specified pattern up to one
trailing newline skipped by the dollar anchor. -/
theorem reEmailMatch_iff_py (s : String) :
    reEmailMatch s.data = true ↔ EmailSpecPy s := by
  unfold reEmailMatch EmailSpecPy
  simp only [Bool.or_eq_true, Bool.and_eq_true, beq_iff_eq]
  constructor
  · rintro (hm | ⟨hlast, hm⟩)
    · exact Or.inl ((emailPatternMatch_iff_spec s).1 hm)
    · obtain ⟨l, hl⟩ := List.getLast?_eq_some_iff.1 hlast
      refine Or.inr ⟨l, hl, ?_⟩
      have hdrop : s.data.dropLast = l := by
        rw [hl, List.dropLast_concat]
      rw [hdrop] at hm
      exact (emailPatternMatch_iff_spec ⟨l⟩).1 hm
  · rintro (hsp | ⟨l, hl, hsp⟩)
    · exact Or.inl ((emailPatternMatch_iff_spec s).2 hsp)
    · refine Or.inr ⟨?_, ?_⟩
      · rw [hl]
        exact List.getLast?_concat l
      · rw [hl, List.dropLast_concat]
        exact (emailPatternMatch_iff_spec ⟨l⟩).2 hsp

/-- The email validator succeeds exactly on the pattern the validator
implements: the specified pattern, possibly with one trailing newline. -/
theorem validate_email_ok_iff (s : String) :
    validate_email s = .ok s ↔ EmailSpecPy s := by
  rw [← reEmailMatch_iff_py]
  unfold validate_email
  by_cases hm : reEmailMatch s.data
  · simp [hm]
  · simp [hm]

/-- The phone validator succeeds exactly on the specified condition. -/
theorem validate_phone_ok_iff (s : String) :
    validate_phone s = .ok s ↔ PhoneSpec s := by
  unfold validate_phone PhoneSpec
  by_cases hc : startsWithPlus s.data && decide (11 ≤ (cleanedPhone s).length) &&
      decide ((cleanedPhone s).length ≤ 16) && pyIsDigit ((cleanedPhone s).drop 1)
  · simp only [hc, if_true]
    simp only [Bool.and_eq_true, decide_eq_true_eq] at hc
    obtain ⟨⟨⟨hplus, h11⟩, h16⟩, hdig⟩ := hc
    constructor
    · intro _
      refine ⟨?_, h11, h16, ?_⟩
      · cases hd : s.data with
        | nil => rw [hd] at hplus; simp [startsWithPlus] at hplus
        | cons c r =>
          rw [hd] at hplus
          simp only [startsWithPlus, beq_iff_eq] at hplus
          subst hplus
          exact ⟨r, rfl⟩
      · simp only [pyIsDigit, Bool.and_eq_true, List.all_eq_true] at hdig
        exact fun c hcm => hdig.2 c hcm
    · intro _
      trivial
  · simp only [hc, if_false]
    constructor
    · intro h
      exact absurd h (by simp)
    · rintro ⟨⟨r, hr⟩, h11, h16, hdig⟩
      exfalso
      apply hc
      simp only [Bool.and_eq_true, decide_eq_true_eq]
      refine ⟨⟨⟨?_, h11⟩, h16⟩, ?_⟩
      · rw [hr]; simp [startsWithPlus]
      · have hne : (cleanedPhone s).drop 1 ≠ [] := by
          intro h
          have hlen := congrArg List.length h
          simp only [List.length_drop, List.length_nil] at hlen
          omega
        have hne2 : ¬(cleanedPhone s).tail = [] := by
          rw [← List.drop_one]
          exact hne
        simp only [pyIsDigit, Bool.and_eq_true, List.all_eq_true]
        exact ⟨by simp [hne2], fun c hcm => hdig c hcm⟩


deriving instance DecidableEq for Except

/- ===================== Frame lemmas ===================== -/

/-- The email setter never touches username, phone or status. -/
theorem set_email_frame (u : UserIdentity) (e : String) :
    (u.set_email e).2.username = u.username ∧
    (u.set_email e).2.phone_number = u.phone_number ∧
    (u.set_email e).2.verification_status = u.verification_status := by
  unfold UserIdentity.set_email
  cases validate_email e <;> exact ⟨rfl, rfl, rfl⟩

/-- The verification request never touches username, email or phone. -/
theorem request_verification_frame (u : UserIdentity) :
    (u.request_verification).2.username = u.username ∧
    (u.request_verification).2.email = u.email ∧
    (u.request_verification).2.phone_number = u.phone_number := by
  unfold UserIdentity.request_verification
  cases u.verification_status <;> exact ⟨rfl, rfl, rfl⟩

/-- Verification never touches username, email or phone. -/
theorem verify_frame (u : UserIdentity) :
    (u.verify).2.username = u.username ∧
    (u.verify).2.email = u.email ∧
    (u.verify).2.phone_number = u.phone_number := by
  unfold UserIdentity.verify
  cases u.verification_status <;> exact ⟨rfl, rfl, rfl⟩

/-- Granting changes neither the identity, and appends exactly one audit
entry; the access object and error result are the delegate results under
the freshly derived flag. -/
theorem grant_permission_frame (s : SecureUser) (p : String) :
    (s.grant_permission p).2.identity = s.identity ∧
    (∃ en, (s.grant_permission p).2.audit_log = s.audit_log ++ [en]) ∧
    (s.grant_permission p).2.access =
      (s.access.add_permission p s.derived_verified).2 ∧
    (s.grant_permission p).1 =
      (s.access.add_permission p s.derived_verified).1 := by
  unfold SecureUser.grant_permission
  cases hadd : s.access.add_permission p s.derived_verified with
  | mk e a2 =>
    cases e <;> exact ⟨rfl, ⟨_, rfl⟩, rfl, rfl⟩

/-- Revoking changes neither the identity, never raises, appends exactly
one audit entry, and the access result is the delegate result. -/
theorem revoke_permission_frame (s : SecureUser) (p : String) :
    (s.revoke_permission p).2.identity = s.identity ∧
    (∃ en, (s.revoke_permission p).2.audit_log = s.audit_log ++ [en]) ∧
    (s.revoke_permission p).2.access = (s.access.remove_permission p).2 ∧
    (s.revoke_permission p).1 = none := by
  unfold SecureUser.revoke_permission
  cases hrem : s.access.remove_permission p with
  | mk r a2 =>
    exact ⟨rfl, ⟨_, rfl⟩, rfl, rfl⟩

/-- The account-level verification request changes neither the access
object, appends exactly one audit entry, and its identity result and error
are the delegate results. -/
theorem su_request_verification_frame (s : SecureUser) :
    (s.request_verification).2.access = s.access ∧
    (∃ en, (s.request_verification).2.audit_log = s.audit_log ++ [en]) ∧
    (s.request_verification).2.identity = (s.identity.request_verification).2 ∧
    (s.request_verification).1 = (s.identity.request_verification).1 := by
  unfold SecureUser.request_verification
  cases hr : s.identity.request_verification with
  | mk e i2 =>
    cases e <;> exact ⟨rfl, ⟨_, rfl⟩, rfl, rfl⟩

/-- The account-level verification changes neither the access object,
appends exactly one audit entry, and delegates to the identity. -/
theorem su_verify_identity_frame (s : SecureUser) :
    (s.verify_identity).2.access = s.access ∧
    (∃ en, (s.verify_identity).2.audit_log = s.audit_log ++ [en]) ∧
    (s.verify_identity).2.identity = (s.identity.verify).2 ∧
    (s.verify_identity).1 = (s.identity.verify).1 := by
  unfold SecureUser.verify_identity
  cases hr : s.identity.verify with
  | mk e i2 =>
    cases e <;> exact ⟨rfl, ⟨_, rfl⟩, rfl, rfl⟩

/-- The account-level email update changes neither the access object,
appends exactly one audit entry, and delegates to the identity. -/
theorem su_update_email_frame (s : SecureUser) (e : String) :
    (s.update_email e).2.access = s.access ∧
    (∃ en, (s.update_email e).2.audit_log = s.audit_log ++ [en]) ∧
    (s.update_email e).2.identity = (s.identity.set_email e).2 ∧
    (s.update_email e).1 = (s.identity.set_email e).1 := by
  unfold SecureUser.update_email
  cases hr : s.identity.set_email e with
  | mk err i2 =>
    cases err <;> exact ⟨rfl, ⟨_, rfl⟩, rfl, rfl⟩

/- ===================== AccountAccess behavior lemmas ===================== -/

/-- Membership test of has_permission unfolded to plain membership. -/
theorem has_permission_iff (a : AccountAccess) (p : String) :
    a.has_permission p = true ↔ pyUpper p ∈ a.permissions := by
  unfold AccountAccess.has_permission
  simp

/-- A restricted grant without verification is refused and leaves the
object untouched. -/
theorem add_permission_denied (a : AccountAccess) (p : String)
    (h1 : pyUpper p ∈ RESTRICTED_PERMISSIONS) :
    a.add_permission p false =
      (some (.permissionDenied
        ("Cannot grant " ++ pyUpper p ++ " permission. User must be VERIFIED to receive restricted permissions.")), a) := by
  unfold AccountAccess.add_permission
  rw [if_pos ⟨h1, rfl⟩]

/-- Any unrestricted or verified grant succeeds, inserting the uppercased
name when absent and doing nothing when present. -/
theorem add_permission_ok (a : AccountAccess) (p : String) (v : Bool)
    (h : pyUpper p ∉ RESTRICTED_PERMISSIONS ∨ v = true) :
    (a.add_permission p v).1 = none ∧
    (a.add_permission p v).2.permissions =
      (if pyUpper p ∈ a.permissions then a.permissions
       else a.permissions ++ [pyUpper p]) := by
  unfold AccountAccess.add_permission
  have hg : ¬(pyUpper p ∈ RESTRICTED_PERMISSIONS ∧ v = false) := by
    rcases h with h | h
    · exact fun hc => h hc.1
    · exact fun hc => by rw [h] at hc; exact Bool.noConfusion hc.2
  rw [if_neg hg]
  by_cases hm : pyUpper p ∈ a.permissions
  · rw [if_pos hm, if_pos hm]
    exact ⟨rfl, rfl⟩
  · rw [if_neg hm, if_neg hm]
    exact ⟨rfl, rfl⟩

/-- Removal reports exactly membership of the uppercased name, erases it
when present and changes nothing when absent. -/
theorem remove_permission_spec (a : AccountAccess) (p : String) :
    ((a.remove_permission p).1 = true ↔ pyUpper p ∈ a.permissions) ∧
    ((a.remove_permission p).1 = true →
      (a.remove_permission p).2.permissions = a.permissions.erase (pyUpper p)) ∧
    ((a.remove_permission p).1 = false → (a.remove_permission p).2 = a) := by
  unfold AccountAccess.remove_permission
  by_cases hm : pyUpper p ∈ a.permissions
  · rw [if_pos hm]
    exact ⟨by simp [hm], fun _ => rfl, by simp⟩
  · rw [if_neg hm]
    exact ⟨by simp [hm], by simp, fun _ => rfl⟩

/- ===================== Claim C9 ===================== -/

/-- C9: for every permission name, add_permission called with
is_verified = true never raises (the denial branch is unreachable) and the
grant lands in the set; the Python default of the omitted flag is true, so
a direct caller of AccountAccess grants restricted permissions without
supplying any verification evidence. -/
theorem C9_add_permission_verified_never_fails :
    ∀ (a : AccountAccess) (p : String),
      (a.add_permission p true).1 = none ∧
      a.add_permission_default p = a.add_permission p true ∧
      (a.add_permission_default p).1 = none ∧
      (a.add_permission_default p).2.has_permission p = true := by
  intro a p
  have hok := add_permission_ok a p true (Or.inr rfl)
  refine ⟨hok.1, rfl, hok.1, ?_⟩
  rw [show a.add_permission_default p = a.add_permission p true from rfl]
  rw [has_permission_iff, hok.2]
  by_cases hm : pyUpper p ∈ a.permissions
  · rw [if_pos hm]
    exact hm
  · rw [if_neg hm]
    exact List.mem_append_right _ (List.mem_singleton_self _)

/- ===================== Claim C10 ===================== -/

/-- Every permission stored in an access object equals its own
uppercasing. -/
def UpperInv (a : AccountAccess) : Prop :=
  ∀ x ∈ a.permissions, pyUpper x = x

/-- C10: the uppercase invariant holds initially, is preserved by
add_permission, remove_permission and every account operation, and
membership tests and removal work up to uppercasing: has_permission is
membership of the uppercased name, remove_permission reports exactly prior
membership of the uppercased name, erasing it when present and leaving the
set unchanged when absent. -/
theorem C10_uppercase_invariant :
    UpperInv AccountAccess.init ∧
    (∀ (a : AccountAccess) (p : String) (v : Bool),
      UpperInv a → UpperInv (a.add_permission p v).2) ∧
    (∀ (a : AccountAccess) (p : String),
      UpperInv a → UpperInv (a.remove_permission p).2) ∧
    (∀ (s : SecureUser) (p : String), UpperInv s.access →
      UpperInv (s.grant_permission p).2.access ∧
      UpperInv (s.revoke_permission p).2.access) ∧
    (∀ (s : SecureUser) (e : String), UpperInv s.access →
      UpperInv (s.request_verification).2.access ∧
      UpperInv (s.verify_identity).2.access ∧
      UpperInv (s.update_email e).2.access) ∧
    (∀ un em ph s0, mkSecureUser un em ph = .ok s0 → UpperInv s0.access) ∧
    (∀ (a : AccountAccess) (p : String),
      (a.has_permission p = true ↔ pyUpper p ∈ a.permissions) ∧
      ((a.remove_permission p).1 = true ↔ pyUpper p ∈ a.permissions) ∧
      ((a.remove_permission p).1 = true →
        (a.remove_permission p).2.permissions = a.permissions.erase (pyUpper p)) ∧
      ((a.remove_permission p).1 = false → (a.remove_permission p).2 = a)) := by
  have hadd : ∀ (a : AccountAccess) (p : String) (v : Bool),
      UpperInv a → UpperInv (a.add_permission p v).2 := by
    intro a p v hInv
    unfold AccountAccess.add_permission
    by_cases h1 : pyUpper p ∈ RESTRICTED_PERMISSIONS ∧ v = false
    · rw [if_pos h1]
      exact hInv
    · rw [if_neg h1]
      by_cases h2 : pyUpper p ∈ a.permissions
      · rw [if_pos h2]
        exact hInv
      · rw [if_neg h2]
        intro x hx
        rcases List.mem_append.1 hx with hx | hx
        · exact hInv x hx
        · rcases List.mem_singleton.1 hx with rfl
          exact pyUpper_idem p
  have hrem : ∀ (a : AccountAccess) (p : String),
      UpperInv a → UpperInv (a.remove_permission p).2 := by
    intro a p hInv
    unfold AccountAccess.remove_permission
    by_cases h2 : pyUpper p ∈ a.permissions
    · rw [if_pos h2]
      intro x hx
      exact hInv x (List.mem_of_mem_erase hx)
    · rw [if_neg h2]
      exact hInv
  refine ⟨?_, hadd, hrem, ?_, ?_, ?_, ?_⟩
  · intro x hx
    exact absurd hx (List.not_mem_nil x)
  · intro s p hInv
    constructor
    · rw [(grant_permission_frame s p).2.2.1]
      exact hadd _ _ _ hInv
    · rw [(revoke_permission_frame s p).2.2.1]
      exact hrem _ _ hInv
  · intro s e hInv
    refine ⟨?_, ?_, ?_⟩
    · rw [(su_request_verification_frame s).1]; exact hInv
    · rw [(su_verify_identity_frame s).1]; exact hInv
    · rw [(su_update_email_frame s e).1]; exact hInv
  · intro un em ph s0 h0
    unfold mkSecureUser at h0
    cases hmk : mkUserIdentity un em ph with
    | error e => rw [hmk] at h0; exact absurd h0 (by simp)
    | ok ident =>
      rw [hmk] at h0
      simp only [Except.ok.injEq] at h0
      subst h0
      intro x hx
      exact absurd hx (List.not_mem_nil x)
  · intro a p
    exact ⟨has_permission_iff a p, (remove_permission_spec a p).1,
      (remove_permission_spec a p).2.1, (remove_permission_spec a p).2.2⟩

instance (a : AccountAccess) : Decidable (UpperInv a) :=
  List.decidableBAll _ _

/-- Witness for C10 at concrete inputs: the invariant on a concrete set is
preserved through a grant, and removal behaves as stated. -/
theorem C10_uppercase_invariant_witness :
    UpperInv ((⟨⟨"u", "a@bb.cc", "+10000000000", .UNVERIFIED⟩,
        ⟨["VIEW"]⟩, []⟩ : SecureUser).grant_permission "transfer").2.access ∧
    ((⟨["VIEW"]⟩ : AccountAccess).remove_permission "view").1 = true := by
  constructor
  · exact ((C10_uppercase_invariant.2.2.2.1 _ "transfer") (by decide)).1
  · exact ((C10_uppercase_invariant.2.2.2.2.2.2 ⟨["VIEW"]⟩ "view").2.1).2 (by decide)

/- ===================== Claim C1 ===================== -/

/-- A failed add_permission leaves the access object untouched. -/
theorem add_permission_error_frame (a : AccountAccess) (p : String) (v : Bool)
    (err : PyError) (h : (a.add_permission p v).1 = some err) :
    (a.add_permission p v).2 = a := by
  unfold AccountAccess.add_permission at h ⊢
  by_cases h1 : pyUpper p ∈ RESTRICTED_PERMISSIONS ∧ v = false
  · rw [if_pos h1]
  · rw [if_neg h1] at h ⊢
    by_cases h2 : pyUpper p ∈ a.permissions
    · rw [if_pos h2]
    · rw [if_neg h2] at h
      exact Option.noConfusion h

/-- C1: grant_permission derives the verified flag fresh from the current
verification status, passes it to add_permission (whose error and access
result it adopts), and for every restricted name the grant is refused with
PermissionDenied while the account is not VERIFIED, leaving the set
unchanged, and succeeds while VERIFIED, after which has_permission on that
name is true. -/
theorem C1_grant_permission_gating :
    ∀ (s : SecureUser) (p : String),
      (s.derived_verified = (s.identity.verification_status == .VERIFIED) ∧
       (s.grant_permission p).1 = (s.access.add_permission p s.derived_verified).1 ∧
       (s.grant_permission p).2.access = (s.access.add_permission p s.derived_verified).2) ∧
      (pyUpper p ∈ RESTRICTED_PERMISSIONS →
        (s.identity.verification_status ≠ .VERIFIED →
          (∃ m, (s.grant_permission p).1 = some (.permissionDenied m)) ∧
          (s.grant_permission p).2.access = s.access) ∧
        (s.identity.verification_status = .VERIFIED →
          (s.grant_permission p).1 = none ∧
          (s.grant_permission p).2.access.has_permission p = true)) := by
  intro s p
  have hf := grant_permission_frame s p
  refine ⟨⟨rfl, hf.2.2.2, hf.2.2.1⟩, ?_⟩
  intro hres
  constructor
  · intro hnv
    have hdv : s.derived_verified = false := by
      unfold SecureUser.derived_verified
      cases hst : s.identity.verification_status <;> simp_all
    have hden := add_permission_denied s.access p hres
    rw [hf.2.2.2, hf.2.2.1, hdv, hden]
    exact ⟨⟨_, rfl⟩, rfl⟩
  · intro hv
    have hdv : s.derived_verified = true := by
      unfold SecureUser.derived_verified
      rw [hv]
      rfl
    have hok := add_permission_ok s.access p true (Or.inr rfl)
    rw [hf.2.2.2, hf.2.2.1, hdv]
    refine ⟨hok.1, ?_⟩
    rw [has_permission_iff, hok.2]
    by_cases hm : pyUpper p ∈ s.access.permissions
    · rw [if_pos hm]
      exact hm
    · rw [if_neg hm]
      exact List.mem_append_right _ (List.mem_singleton_self _)

/-- Witness for C1: granting transfer while UNVERIFIED is refused and
granting it while VERIFIED succeeds, making has_permission true. -/
theorem C1_grant_permission_gating_witness :
    (∃ m, ((⟨⟨"u", "a@bb.cc", "+10000000000", .UNVERIFIED⟩, ⟨[]⟩, []⟩ :
      SecureUser).grant_permission "transfer").1 = some (.permissionDenied m)) ∧
    ((⟨⟨"u", "a@bb.cc", "+10000000000", .VERIFIED⟩, ⟨[]⟩, []⟩ :
      SecureUser).grant_permission "transfer").1 = none ∧
    ((⟨⟨"u", "a@bb.cc", "+10000000000", .VERIFIED⟩, ⟨[]⟩, []⟩ :
      SecureUser).grant_permission "transfer").2.access.has_permission "transfer" = true := by
  refine ⟨?_, ?_, ?_⟩
  · exact (((C1_grant_permission_gating _ "transfer").2 (by decide)).1 (by decide)).1
  · exact (((C1_grant_permission_gating _ "transfer").2 (by decide)).2 (by decide)).1
  · exact (((C1_grant_permission_gating _ "transfer").2 (by decide)).2 (by decide)).2

/- ===================== Claim C2 ===================== -/

/-- C2: the verification status is a three-state machine: construction
yields UNVERIFIED with an empty permission set; request_verification
succeeds exactly from UNVERIFIED moving to PENDING and fails with
InvalidStateTransition otherwise; verify succeeds exactly from PENDING
moving to VERIFIED and fails with InvalidStateTransition otherwise; and no
operation of the identity or the account leaves VERIFIED. -/
theorem C2_verification_state_machine :
    (∀ un em ph u, mkUserIdentity un em ph = .ok u →
      u.verification_status = .UNVERIFIED) ∧
    (∀ un em ph s0, mkSecureUser un em ph = .ok s0 →
      (s0.identity_status).verification_status = .UNVERIFIED ∧
      (s0.identity_status).permissions = []) ∧
    (∀ u : UserIdentity,
      (u.verification_status = .UNVERIFIED →
        u.request_verification = (none, { u with verification_status := .PENDING })) ∧
      (u.verification_status ≠ .UNVERIFIED →
        (∃ m, (u.request_verification).1 = some (.invalidStateTransition m)) ∧
        (u.request_verification).2 = u)) ∧
    (∀ u : UserIdentity,
      (u.verification_status = .PENDING →
        u.verify = (none, { u with verification_status := .VERIFIED })) ∧
      (u.verification_status ≠ .PENDING →
        (∃ m, (u.verify).1 = some (.invalidStateTransition m)) ∧
        (u.verify).2 = u)) ∧
    (∀ u : UserIdentity, u.verification_status = .VERIFIED →
      (u.request_verification).2.verification_status = .VERIFIED ∧
      (u.verify).2.verification_status = .VERIFIED ∧
      ∀ e, (u.set_email e).2.verification_status = .VERIFIED) ∧
    (∀ s : SecureUser, s.identity.verification_status = .VERIFIED →
      (∀ p, (s.grant_permission p).2.identity.verification_status = .VERIFIED ∧
        (s.revoke_permission p).2.identity.verification_status = .VERIFIED ∧
        (s.update_email p).2.identity.verification_status = .VERIFIED) ∧
      (s.request_verification).2.identity.verification_status = .VERIFIED ∧
      (s.verify_identity).2.identity.verification_status = .VERIFIED) := by
  have hreq : ∀ u : UserIdentity,
      (u.verification_status = .UNVERIFIED →
        u.request_verification = (none, { u with verification_status := .PENDING })) ∧
      (u.verification_status ≠ .UNVERIFIED →
        (∃ m, (u.request_verification).1 = some (.invalidStateTransition m)) ∧
        (u.request_verification).2 = u) := by
    intro u
    unfold UserIdentity.request_verification
    cases hst : u.verification_status <;>
      exact ⟨by intro h; first | rfl | exact absurd h (by simp),
        by intro h; first | exact absurd rfl h | exact ⟨⟨_, rfl⟩, rfl⟩⟩
  have hver : ∀ u : UserIdentity,
      (u.verification_status = .PENDING →
        u.verify = (none, { u with verification_status := .VERIFIED })) ∧
      (u.verification_status ≠ .PENDING →
        (∃ m, (u.verify).1 = some (.invalidStateTransition m)) ∧
        (u.verify).2 = u) := by
    intro u
    unfold UserIdentity.verify
    cases hst : u.verification_status <;>
      exact ⟨by intro h; first | rfl | exact absurd h (by simp),
        by intro h; first | exact absurd rfl h | exact ⟨⟨_, rfl⟩, rfl⟩⟩
  have hterm : ∀ u : UserIdentity, u.verification_status = .VERIFIED →
      (u.request_verification).2.verification_status = .VERIFIED ∧
      (u.verify).2.verification_status = .VERIFIED ∧
      ∀ e, (u.set_email e).2.verification_status = .VERIFIED := by
    intro u h
    refine ⟨?_, ?_, ?_⟩
    · rw [((hreq u).2 (by rw [h]; simp)).2, h]
    · rw [((hver u).2 (by rw [h]; simp)).2, h]
    · intro e
      rw [(set_email_frame u e).2.2, h]
  refine ⟨?_, ?_, hreq, hver, hterm, ?_⟩
  · intro un em ph u h
    unfold mkUserIdentity at h
    cases h1 : validate_email em with
    | error e => rw [h1] at h; exact Except.noConfusion h
    | ok v =>
      rw [h1] at h
      cases h2 : validate_phone ph with
      | error e => rw [h2] at h; exact Except.noConfusion h
      | ok pv =>
        rw [h2] at h
        simp only [Except.ok.injEq] at h
        rw [← h]
  · intro un em ph s0 h
    unfold mkSecureUser at h
    cases hmk : mkUserIdentity un em ph with
    | error e => rw [hmk] at h; exact Except.noConfusion h
    | ok ident =>
      rw [hmk] at h
      simp only [Except.ok.injEq] at h
      subst h
      constructor
      · show ident.verification_status = .UNVERIFIED
        unfold mkUserIdentity at hmk
        cases h1 : validate_email em with
        | error e => rw [h1] at hmk; exact Except.noConfusion hmk
        | ok v =>
          rw [h1] at hmk
          cases h2 : validate_phone ph with
          | error e => rw [h2] at hmk; exact Except.noConfusion hmk
          | ok pv =>
            rw [h2] at hmk
            simp only [Except.ok.injEq] at hmk
            rw [← hmk]
      · rfl
  · intro s h
    refine ⟨?_, ?_, ?_⟩
    · intro p
      refine ⟨?_, ?_, ?_⟩
      · rw [(grant_permission_frame s p).1, h]
      · rw [(revoke_permission_frame s p).1, h]
      · rw [(su_update_email_frame s p).2.2.1, (set_email_frame s.identity p).2.2, h]
    · rw [(su_request_verification_frame s).2.2.1,
        ((hreq s.identity).2 (by rw [h]; simp)).2, h]
    · rw [(su_verify_identity_frame s).2.2.1,
        ((hver s.identity).2 (by rw [h]; simp)).2, h]

/-- Witness for C2 at concrete inputs: construction lands in UNVERIFIED
with no permissions, the two transitions run forward, and VERIFIED is
terminal. -/
theorem C2_verification_state_machine_witness :
    (((⟨⟨"u", "a@bb.cc", "+10000000000", .UNVERIFIED⟩, ⟨[]⟩,
        [⟨"SecureUser created", "Username: u"⟩]⟩ : SecureUser).identity_status).permissions = []) ∧
    ((⟨"u", "a@bb.cc", "+10000000000", .UNVERIFIED⟩ : UserIdentity).request_verification =
      (none, ⟨"u", "a@bb.cc", "+10000000000", .PENDING⟩)) ∧
    ((⟨"u", "a@bb.cc", "+10000000000", .PENDING⟩ : UserIdentity).verify =
      (none, ⟨"u", "a@bb.cc", "+10000000000", .VERIFIED⟩)) ∧
    ((⟨"u", "a@bb.cc", "+10000000000", .VERIFIED⟩ : UserIdentity).verify).2.verification_status = .VERIFIED := by
  refine ⟨?_, ?_, ?_, ?_⟩
  · exact (C2_verification_state_machine.2.1 "u" "a@bb.cc" "+10000000000" _ (by rfl)).2
  · exact (C2_verification_state_machine.2.2.1 _).1 (by decide)
  · exact (C2_verification_state_machine.2.2.2.1 _).1 (by decide)
  · exact (C2_verification_state_machine.2.2.2.2.1 _ (by decide)).2.1

/- ===================== Claim C3 ===================== -/

/-- C3: every failing operation is atomic on the field it targets: a failed
set_email or update_email leaves the prior email, a failed verification
request or verification leaves the status, and a denied grant leaves the
permission set, so the caller can retry. -/
theorem C3_failure_atomicity :
    (∀ (u : UserIdentity) (e : String) (err : PyError),
      (u.set_email e).1 = some err → (u.set_email e).2.email = u.email) ∧
    (∀ (s : SecureUser) (e : String) (err : PyError),
      (s.update_email e).1 = some err →
        (s.update_email e).2.identity.email = s.identity.email) ∧
    (∀ (u : UserIdentity) (err : PyError),
      ((u.request_verification).1 = some err →
        (u.request_verification).2.verification_status = u.verification_status) ∧
      ((u.verify).1 = some err →
        (u.verify).2.verification_status = u.verification_status)) ∧
    (∀ (s : SecureUser) (err : PyError),
      ((s.request_verification).1 = some err →
        (s.request_verification).2.identity.verification_status =
          s.identity.verification_status) ∧
      ((s.verify_identity).1 = some err →
        (s.verify_identity).2.identity.verification_status =
          s.identity.verification_status)) ∧
    (∀ (s : SecureUser) (p : String) (err : PyError),
      (s.grant_permission p).1 = some err →
        (s.grant_permission p).2.access = s.access) := by
  have hse : ∀ (u : UserIdentity) (e : String) (err : PyError),
      (u.set_email e).1 = some err → (u.set_email e).2.email = u.email := by
    intro u e err h
    unfold UserIdentity.set_email at h ⊢
    cases hv : validate_email e with
    | error e2 => rfl
    | ok v => rw [hv] at h; exact Option.noConfusion h
  have hrq : ∀ (u : UserIdentity) (err : PyError),
      (u.request_verification).1 = some err →
        (u.request_verification).2.verification_status = u.verification_status := by
    intro u err h
    unfold UserIdentity.request_verification at h ⊢
    cases hst : u.verification_status with
    | UNVERIFIED => rw [hst] at h; exact Option.noConfusion h
    | PENDING => rw [hst]
    | VERIFIED => rw [hst]
  have hvf : ∀ (u : UserIdentity) (err : PyError),
      (u.verify).1 = some err →
        (u.verify).2.verification_status = u.verification_status := by
    intro u err h
    unfold UserIdentity.verify at h ⊢
    cases hst : u.verification_status with
    | UNVERIFIED => rw [hst]
    | PENDING => rw [hst] at h; exact Option.noConfusion h
    | VERIFIED => rw [hst]
  refine ⟨hse, ?_, fun u err => ⟨hrq u err, hvf u err⟩, ?_, ?_⟩
  · intro s e err h
    have hf := su_update_email_frame s e
    rw [hf.2.2.2] at h
    rw [hf.2.2.1]
    have := hse s.identity e err h
    unfold UserIdentity.set_email at this ⊢
    exact this
  · intro s err
    constructor
    · intro h
      have hf := su_request_verification_frame s
      rw [hf.2.2.2] at h
      rw [hf.2.2.1]
      exact hrq s.identity err h
    · intro h
      have hf := su_verify_identity_frame s
      rw [hf.2.2.2] at h
      rw [hf.2.2.1]
      exact hvf s.identity err h
  · intro s p err h
    have hf := grant_permission_frame s p
    rw [hf.2.2.2] at h
    rw [hf.2.2.1]
    exact add_permission_error_frame _ _ _ _ h

/-- Witness for C3 at concrete failing calls: a rejected email update, a
repeated verification request, a premature verification and a denied
restricted grant all leave their target fields unchanged. -/
theorem C3_failure_atomicity_witness :
    ((⟨"u", "a@bb.cc", "+10000000000", .UNVERIFIED⟩ : UserIdentity).set_email "bad").2.email = "a@bb.cc" ∧
    ((⟨"u", "a@bb.cc", "+10000000000", .PENDING⟩ : UserIdentity).request_verification).2.verification_status = .PENDING ∧
    ((⟨"u", "a@bb.cc", "+10000000000", .UNVERIFIED⟩ : UserIdentity).verify).2.verification_status = .UNVERIFIED ∧
    ((⟨⟨"u", "a@bb.cc", "+10000000000", .UNVERIFIED⟩, ⟨["VIEW"]⟩, []⟩ :
      SecureUser).grant_permission "WITHDRAW").2.access = ⟨["VIEW"]⟩ := by
  refine ⟨?_, ?_, ?_, ?_⟩
  · exact C3_failure_atomicity.1 _ "bad"
      (.validationError "Invalid email format: bad") (by rfl)
  · exact (C3_failure_atomicity.2.2.1 _
      (.invalidStateTransition "Verification already pending. Cannot request again.")).1 (by rfl)
  · exact (C3_failure_atomicity.2.2.1 _
      (.invalidStateTransition "Cannot verify. User must request verification first.")).2 (by rfl)
  · exact C3_failure_atomicity.2.2.2.2 _ "WITHDRAW"
      (.permissionDenied "Cannot grant WITHDRAW permission. User must be VERIFIED to receive restricted permissions.") (by rfl)

/- ===================== Claim C4 ===================== -/

/-- C4 counterexample: a ValidationError raised during construction is
signaled to the caller with NO audit-log append: the identity constructor
raises before the audit log of the account even exists, so the emitted
audit trace of the failing construction is empty, contradicting the claim
that every error of the three kinds is preceded by an audit-log append. -/
theorem C4_construction_error_not_logged :
    (∃ m, mkSecureUser "u" "invalid.email" "+1-555-000-0000" =
      .error (.validationError m)) ∧
    mkSecureUserEmittedLog "u" "invalid.email" "+1-555-000-0000" = [] := by
  exact ⟨⟨"Invalid email format: invalid.email", rfl⟩, rfl⟩

/-- C4 amended: every error raised by an account operation
(grant_permission, request_verification, verify_identity, update_email) is
preceded by exactly one audit-log append recording the attempted action
and its failure reason, and the error is then re-signaled to the caller
(never suppressed); but a ValidationError raised at construction is
signaled with no audit-log append, because the audit log is created only
after the identity validates. -/
theorem C4_error_logging :
    ∀ (s : SecureUser) (p e : String),
      (∀ err, (s.grant_permission p).1 = some err →
        (s.grant_permission p).2.audit_log = s.audit_log ++
          [⟨"Permission grant FAILED",
            "Permission: " ++ p ++ ", Reason: " ++ err.message⟩]) ∧
      (∀ err, (s.request_verification).1 = some err →
        (s.request_verification).2.audit_log = s.audit_log ++
          [⟨"Verification request FAILED", err.message⟩]) ∧
      (∀ err, (s.verify_identity).1 = some err →
        (s.verify_identity).2.audit_log = s.audit_log ++
          [⟨"Verification FAILED", err.message⟩]) ∧
      (∀ err, (s.update_email e).1 = some err →
        (s.update_email e).2.audit_log = s.audit_log ++
          [⟨"Email update FAILED", err.message⟩]) ∧
      (∀ un em ph err, mkSecureUser un em ph = .error err →
        mkSecureUserEmittedLog un em ph = []) := by
  intro s p e
  refine ⟨?_, ?_, ?_, ?_, ?_⟩
  · intro err h
    unfold SecureUser.grant_permission at h ⊢
    cases hadd : s.access.add_permission p s.derived_verified with
    | mk e2 a2 =>
      cases e2 with
      | none => rw [hadd] at h; exact Option.noConfusion h
      | some err2 =>
        rw [hadd] at h
        simp only [Option.some.injEq] at h
        subst h
        rfl
  · intro err h
    unfold SecureUser.request_verification at h ⊢
    cases hr : s.identity.request_verification with
    | mk e2 i2 =>
      cases e2 with
      | none => rw [hr] at h; exact Option.noConfusion h
      | some err2 =>
        rw [hr] at h
        simp only [Option.some.injEq] at h
        subst h
        rfl
  · intro err h
    unfold SecureUser.verify_identity at h ⊢
    cases hr : s.identity.verify with
    | mk e2 i2 =>
      cases e2 with
      | none => rw [hr] at h; exact Option.noConfusion h
      | some err2 =>
        rw [hr] at h
        simp only [Option.some.injEq] at h
        subst h
        rfl
  · intro err h
    unfold SecureUser.update_email at h ⊢
    cases hr : s.identity.set_email e with
    | mk e2 i2 =>
      cases e2 with
      | none => rw [hr] at h; exact Option.noConfusion h
      | some err2 =>
        rw [hr] at h
        simp only [Option.some.injEq] at h
        subst h
        rfl
  · intro un em ph err h
    unfold mkSecureUserEmittedLog
    rw [h]

/-- Witness for C4 amended at concrete failing calls: the denied grant and
the premature verification each append exactly the failure entry, and the
failing construction emits nothing. -/
theorem C4_error_logging_witness :
    ((⟨⟨"u", "a@bb.cc", "+10000000000", .UNVERIFIED⟩, ⟨[]⟩, []⟩ :
      SecureUser).grant_permission "transfer").2.audit_log =
      [⟨"Permission grant FAILED",
        "Permission: transfer, Reason: Cannot grant TRANSFER permission. User must be VERIFIED to receive restricted permissions."⟩] ∧
    mkSecureUserEmittedLog "u" "invalid.email" "+1-555-000-0000" = [] := by
  constructor
  · exact (C4_error_logging ⟨⟨"u", "a@bb.cc", "+10000000000", .UNVERIFIED⟩, ⟨[]⟩, []⟩
      "transfer" "x").1 _ (by rfl)
  · exact (C4_error_logging ⟨⟨"u", "a@bb.cc", "+10000000000", .UNVERIFIED⟩, ⟨[]⟩, []⟩
      "p" "x").2.2.2.2 "u" "invalid.email" "+1-555-000-0000"
      (.validationError "Invalid email format: invalid.email") (by rfl)

/- ===================== Claim C5 ===================== -/

/-- C5 counterexample: the Python dollar anchor also matches just before a
newline at the end of the string, so __validate_email accepts the string
john at site.com followed by a newline, although that string does not
match the claimed local@domain.tld pattern: the claimed acceptance-iff is
false at this input. -/
theorem C5_trailing_newline_accepted :
    validate_email "john@site.com\n" = .ok "john@site.com\n" ∧
    ¬ EmailSpec "john@site.com\n" := by
  constructor
  · rfl
  · intro h
    have hm := (emailPatternMatch_iff_spec "john@site.com\n").2 h
    exact absurd hm (by decide)

/-- C5 amended: email validation at construction and at the setter accepts
a string exactly when it matches the claimed local@domain.tld pattern
(ASCII local part of letters, digits and ._%+-, an at sign, domain labels,
a final label of at least two letters) possibly followed by one trailing
newline, which the Python dollar anchor skips; on newline-free strings the
acceptance condition is exactly the claimed pattern, and the four concrete
examples behave as claimed. -/
theorem C5_email_validation :
    (∀ s : String, validate_email s = .ok s ↔ EmailSpecPy s) ∧
    (∀ (u : UserIdentity) (s : String), (u.set_email s).1 = none ↔ EmailSpecPy s) ∧
    (∀ un em ph, ¬ EmailSpecPy em →
      mkUserIdentity un em ph =
        .error (.validationError ("Invalid email format: " ++ em))) ∧
    (∀ s : String, '\n' ∉ s.data →
      (validate_email s = .ok s ↔ EmailSpec s)) ∧
    validate_email "john@site.com" = .ok "john@site.com" ∧
    validate_email "invalid.email" =
      .error (.validationError "Invalid email format: invalid.email") ∧
    validate_email "no-at-sign.com" =
      .error (.validationError "Invalid email format: no-at-sign.com") ∧
    validate_email "a@b" = .error (.validationError "Invalid email format: a@b") := by
  have hrej : ∀ s : String, ¬ EmailSpecPy s →
      validate_email s = .error (.validationError ("Invalid email format: " ++ s)) := by
    intro s hn
    unfold validate_email
    rw [if_neg]
    intro hm
    exact hn ((reEmailMatch_iff_py s).1 hm)
  refine ⟨validate_email_ok_iff, ?_, ?_, ?_, rfl, rfl, rfl, rfl⟩
  · intro u s
    unfold UserIdentity.set_email
    constructor
    · intro h
      cases hv : validate_email s with
      | error e2 =>
        rw [hv] at h
        exact Option.noConfusion h
      | ok v =>
        have hvs : v = s := by
          unfold validate_email at hv
          by_cases hm : reEmailMatch s.data
          · rw [if_pos hm] at hv
            exact (Except.ok.inj hv.symm)
          · rw [if_neg hm] at hv
            exact Except.noConfusion hv
        rw [hvs] at hv
        exact (validate_email_ok_iff s).1 hv
    · intro h
      rw [(validate_email_ok_iff s).2 h]
  · intro un em ph hn
    unfold mkUserIdentity
    rw [hrej em hn]
  · intro s hnl
    rw [validate_email_ok_iff]
    constructor
    · rintro (h | ⟨l, hl, -⟩)
      · exact h
      · rw [hl] at hnl
        exact absurd (List.mem_append_right _ (List.mem_singleton_self _)) hnl
    · intro h
      exact Or.inl h

/-- Witness for C5 amended at concrete inputs: the setter accepts a valid
address, construction with a malformed address fails with ValidationError,
and on the newline-free example the acceptance condition coincides with
the claimed pattern. -/
theorem C5_email_validation_witness :
    ((⟨"u", "a@bb.cc", "+10000000000", .UNVERIFIED⟩ :
      UserIdentity).set_email "john@site.com").1 = none ∧
    mkUserIdentity "u" "invalid.email" "+1-555-000-0000" =
      .error (.validationError "Invalid email format: invalid.email") ∧
    (validate_email "john@site.com" = .ok "john@site.com" ↔ EmailSpec "john@site.com") := by
  refine ⟨?_, ?_, ?_⟩
  · exact (C5_email_validation.2.1 _ "john@site.com").2
      (Or.inl ((emailPatternMatch_iff_spec "john@site.com").1 (by decide)))
  · exact C5_email_validation.2.2.1 "u" "invalid.email" "+1-555-000-0000"
      (fun h => by
        have := (validate_email_ok_iff "invalid.email").2 h
        exact Except.noConfusion this)
  · exact C5_email_validation.2.2.2.1 "john@site.com" (by decide)

/- ===================== Claim C6 ===================== -/

/-- C6: phone validation at construction accepts a string exactly when it
starts with a plus sign and, after removing spaces, dashes and
parentheses, has 11 to 16 characters with every character after the
leading plus a digit; the given concrete acceptances and rejections hold,
any input with 17 or more digits after the plus is rejected, and the phone
number is immutable: no operation of the identity or the account changes
it. -/
theorem C6_phone_validation :
    (∀ s : String, validate_phone s = .ok s ↔ PhoneSpec s) ∧
    validate_phone "+1-555-123-4567" = .ok "+1-555-123-4567" ∧
    validate_phone "123-456" =
      .error (.validationError "Invalid phone format: 123-456. Expected format: +X-XXX-XXX-XXXX") ∧
    (∀ s : String, (∀ c ∈ (cleanedPhone s).drop 1, c.isDigit) →
      17 ≤ ((cleanedPhone s).drop 1).length →
      validate_phone s =
        .error (.validationError ("Invalid phone format: " ++ s ++ ". Expected format: +X-XXX-XXX-XXXX"))) ∧
    (∀ un em ph, EmailSpec em → ¬ PhoneSpec ph →
      mkUserIdentity un em ph =
        .error (.validationError ("Invalid phone format: " ++ ph ++ ". Expected format: +X-XXX-XXX-XXXX"))) ∧
    (∀ (u : UserIdentity) (e : String),
      (u.set_email e).2.phone_number = u.phone_number ∧
      (u.request_verification).2.phone_number = u.phone_number ∧
      (u.verify).2.phone_number = u.phone_number) ∧
    (∀ (s : SecureUser) (p : String),
      (s.grant_permission p).2.identity.phone_number = s.identity.phone_number ∧
      (s.revoke_permission p).2.identity.phone_number = s.identity.phone_number ∧
      (s.update_email p).2.identity.phone_number = s.identity.phone_number ∧
      (s.request_verification).2.identity.phone_number = s.identity.phone_number ∧
      (s.verify_identity).2.identity.phone_number = s.identity.phone_number) := by
  have hrej : ∀ s : String, ¬ PhoneSpec s →
      validate_phone s =
        .error (.validationError ("Invalid phone format: " ++ s ++ ". Expected format: +X-XXX-XXX-XXXX")) := by
    intro s hn
    cases hv : validate_phone s with
    | error e2 =>
      unfold validate_phone at hv
      by_cases hc : startsWithPlus s.data && decide (11 ≤ (cleanedPhone s).length) &&
          decide ((cleanedPhone s).length ≤ 16) && pyIsDigit ((cleanedPhone s).drop 1)
      · rw [if_pos hc] at hv
        exact Except.noConfusion hv
      · rw [if_neg hc] at hv
        rw [← hv]
    | ok v =>
      have hvs : v = s := by
        unfold validate_phone at hv
        by_cases hc : startsWithPlus s.data && decide (11 ≤ (cleanedPhone s).length) &&
            decide ((cleanedPhone s).length ≤ 16) && pyIsDigit ((cleanedPhone s).drop 1)
        · rw [if_pos hc] at hv
          exact (Except.ok.inj hv.symm)
        · rw [if_neg hc] at hv
          exact Except.noConfusion hv
      rw [hvs] at hv
      exact absurd ((validate_phone_ok_iff s).1 hv) hn
  refine ⟨validate_phone_ok_iff, rfl, rfl, ?_, ?_, ?_, ?_⟩
  · intro s hdig hlen
    apply hrej
    rintro ⟨-, -, h16, -⟩
    have : (cleanedPhone s).length - 1 = ((cleanedPhone s).drop 1).length := by
      rw [List.length_drop]
    omega
  · intro un em ph hem hn
    unfold mkUserIdentity
    rw [(validate_email_ok_iff em).2 (Or.inl hem), hrej ph hn]
  · intro u e
    exact ⟨(set_email_frame u e).2.1, (request_verification_frame u).2.2,
      (verify_frame u).2.2⟩
  · intro s p
    refine ⟨?_, ?_, ?_, ?_, ?_⟩
    · rw [(grant_permission_frame s p).1]
    · rw [(revoke_permission_frame s p).1]
    · rw [(su_update_email_frame s p).2.2.1]
      exact (set_email_frame s.identity p).2.1
    · rw [(su_request_verification_frame s).2.2.1]
      exact (request_verification_frame s.identity).2.2
    · rw [(su_verify_identity_frame s).2.2.1]
      exact (verify_frame s.identity).2.2

/-- Witness for C6 at concrete inputs: a 17-digit phone is rejected and a
construction with a valid email but malformed phone fails with the phone
ValidationError. -/
theorem C6_phone_validation_witness :
    validate_phone "+11111111111111111" =
      .error (.validationError "Invalid phone format: +11111111111111111. Expected format: +X-XXX-XXX-XXXX") ∧
    mkUserIdentity "u" "a@bb.cc" "123-456" =
      .error (.validationError "Invalid phone format: 123-456. Expected format: +X-XXX-XXX-XXXX") := by
  constructor
  · exact C6_phone_validation.2.2.2.1 "+11111111111111111" (by decide) (by decide)
  · exact C6_phone_validation.2.2.2.2.1 "u" "a@bb.cc" "123-456"
      ((emailPatternMatch_iff_spec "a@bb.cc").1 (by decide))
      (fun h => by
        have := (validate_phone_ok_iff "123-456").2 h
        exact Except.noConfusion this)

/- ===================== Claim C7 ===================== -/

/-- The end-to-end scenario of the specification: construct alice, grant
VIEW, attempt WITHDRAW unverified, request verification, verify, grant
WITHDRAW again; collects each step error and the final state. -/
def scenarioSteps : Option (Option PyError × Option PyError × Option PyError ×
    Option PyError × Option PyError × SecureUser) :=
  match mkSecureUser "alice" "alice@x.com" "+1-555-000-0000" with
  | .error _ => none
  | .ok s0 =>
    let r1 := s0.grant_permission "VIEW"
    let r2 := r1.2.grant_permission "WITHDRAW"
    let r3 := r2.2.request_verification
    let r4 := r3.2.verify_identity
    let r5 := r4.2.grant_permission "WITHDRAW"
    some (r1.1, r2.1, r3.1, r4.1, r5.1, r5.2)

/-- C7: the audit log grows by exactly one appended entry per account
operation attempt, successful or failed, never reordered or truncated; a
successful construction logs exactly the creation entry; and the
end-to-end scenario runs with exactly the specified outcomes, final
permission set VIEW and WITHDRAW, and six audit entries. -/
theorem C7_audit_log_growth :
    (∀ (s : SecureUser) (p : String),
      (∃ en, (s.grant_permission p).2.audit_log = s.audit_log ++ [en]) ∧
      (∃ en, (s.revoke_permission p).2.audit_log = s.audit_log ++ [en]) ∧
      (∃ en, (s.update_email p).2.audit_log = s.audit_log ++ [en])) ∧
    (∀ s : SecureUser,
      (∃ en, (s.request_verification).2.audit_log = s.audit_log ++ [en]) ∧
      (∃ en, (s.verify_identity).2.audit_log = s.audit_log ++ [en])) ∧
    (∀ un em ph s0, mkSecureUser un em ph = .ok s0 →
      s0.audit_log = [⟨"SecureUser created", "Username: " ++ un⟩]) ∧
    (∃ fin, scenarioSteps = some (none,
        some (.permissionDenied
          "Cannot grant WITHDRAW permission. User must be VERIFIED to receive restricted permissions."),
        none, none, none, fin) ∧
      fin.access.permissions = ["VIEW", "WITHDRAW"] ∧
      fin.audit_log.length = 6) := by
  refine ⟨?_, ?_, ?_, ?_⟩
  · intro s p
    exact ⟨(grant_permission_frame s p).2.1, (revoke_permission_frame s p).2.1,
      (su_update_email_frame s p).2.1⟩
  · intro s
    exact ⟨(su_request_verification_frame s).2.1, (su_verify_identity_frame s).2.1⟩
  · intro un em ph s0 h
    unfold mkSecureUser at h
    cases hmk : mkUserIdentity un em ph with
    | error e => rw [hmk] at h; exact Except.noConfusion h
    | ok ident =>
      rw [hmk] at h
      simp only [Except.ok.injEq] at h
      rw [← h]
      rfl
  · exact ⟨_, rfl, rfl, rfl⟩

/-- Witness for C7: the concrete successful construction of alice logs
exactly the creation entry. -/
theorem C7_audit_log_growth_witness :
    (⟨⟨"alice", "alice@x.com", "+1-555-000-0000", .UNVERIFIED⟩, ⟨[]⟩,
      [⟨"SecureUser created", "Username: alice"⟩]⟩ : SecureUser).audit_log =
      [⟨"SecureUser created", "Username: alice"⟩] := by
  exact C7_audit_log_growth.2.2.1 "alice" "alice@x.com" "+1-555-000-0000" _ (by rfl)

/- ===================== Claim C8 ===================== -/

/-- The concrete heap after constructing alice: the internal audit list
object at address 0 references the single creation entry dict at address
0. -/
def c8Heap : Heap := ⟨[[0]], [⟨"SecureUser created", "Username: alice"⟩]⟩

/-- C8 counterexample: get_audit_log copies only the list object (a
shallow copy), so mutating an entry dict reached through the returned copy
changes the internal log: after overwriting the entry whose address the
returned copy holds, the internal audit view differs from the original,
contradicting the claim that mutating collections returned by
get_audit_log never changes internal state or subsequent results. -/
theorem C8_entry_mutation_leaks :
    Heap.renderLog
      ((c8Heap.listCopy 0).1.dictSet
        (((c8Heap.listCopy 0).1.readList (c8Heap.listCopy 0).2).getD 0 0)
        ⟨"tampered", ""⟩) 0 ≠ c8Heap.renderLog 0 := by
  decide

/-- C8 amended: the copies themselves are independent: get_audit_log
allocates a fresh list object, so the call leaves the internal view
unchanged and mutating the returned list object (appending to it or
clearing it) never changes the internal audit view; the stored permission
strings are immutable values, so get_permissions and identity_status
snapshots are fully independent; only mutating a shared audit entry dict
through the returned references (the counterexample) reaches internal
state. -/
theorem C8_snapshot_independence :
    ∀ (h : Heap) (internal d : Nat), internal < h.lists.length →
      (h.listCopy internal).2 ≠ internal ∧
      Heap.renderLog (h.listCopy internal).1 internal = h.renderLog internal ∧
      Heap.renderLog ((h.listCopy internal).1.listAppend (h.listCopy internal).2 d)
        internal = h.renderLog internal ∧
      Heap.renderLog ((h.listCopy internal).1.listClear (h.listCopy internal).2)
        internal = h.renderLog internal := by
  intro h internal d hlt
  have hcopy2 : (h.listCopy internal).2 = h.lists.length := rfl
  have hread : ∀ x : List Nat, (h.lists ++ [x]).getD internal [] = h.lists.getD internal [] := by
    intro x
    simp [List.getD, List.getElem?_append_left hlt]
  have hset : ∀ (ls : List (List Nat)) (y : List Nat),
      (ls.set h.lists.length y).getD internal [] = ls.getD internal [] := by
    intro ls y
    simp [List.getD, List.getElem?_set_ne (Nat.ne_of_gt hlt)]
  refine ⟨by rw [hcopy2]; exact Nat.ne_of_gt hlt, ?_, ?_, ?_⟩
  · unfold Heap.renderLog Heap.readList Heap.readDict Heap.listCopy
    simp only [hread]
  · unfold Heap.renderLog Heap.readList Heap.readDict Heap.listAppend Heap.listCopy
    simp only [hset, hread]
  · unfold Heap.renderLog Heap.readList Heap.readDict Heap.listClear Heap.listCopy
    simp only [hset, hread]

/-- Witness for C8 amended on the concrete alice heap: list-level mutation
of the returned copy leaves the internal audit view unchanged. -/
theorem C8_snapshot_independence_witness :
    Heap.renderLog ((c8Heap.listCopy 0).1.listAppend (c8Heap.listCopy 0).2 0) 0 =
      c8Heap.renderLog 0 := by
  exact (C8_snapshot_independence c8Heap 0 0 (by decide)).2.2.1
